import Mathlib

/-!
Verification of the resource lifecycle handlers in
src/sumologic-app-utils/src/api.py (CloudFormation custom resource
handlers for the Sumo Logic API).

The remote SumoLogic SDK client, the template fetch and the clock are
external collaborators (spec section 6); they are modelled as oracle
records whose fields hold the responses the remote side returns, while
every handler body is translated statement by statement from the Python
source.  A Python exception carrying a `response` attribute with a JSON
body is modelled by `RemoteError.withResponse`; any other exception by
`RemoteError.noResponse`.  Remote calls made by `delete` and by the App
handler are additionally recorded in an explicit call trace so that
frame properties (which remote operations were invoked) can be stated.
-/

/-- JSON body of an error response: one element of the `errors` array,
with an optional machine readable `code` and a `message`
(api.py reads both shapes, e.g. lines 296-300 and 557-561). -/
structure ErrItem where
  code : Option String
  message : String
deriving DecidableEq, Repr

/-- An HTTP error response as the handlers consume it: the HTTP status
code (`e.response.status_code`), the top level `code` field of the JSON
body (read by the collector and source handlers), the `errors` array
(read by the connection and app handlers) and the optional top level
`id` field (read by Connections.create, line 300). -/
structure ErrResponse where
  statusCode : Nat
  code : String
  errors : List ErrItem
  id : Option Nat
deriving DecidableEq, Repr

/-- A raised exception: either it carries a `response` attribute
(`hasattr(e, "response")` in the source) with a decoded body, or it
does not. -/
inductive RemoteError where
  | withResponse (r : ErrResponse)
  | noResponse (msg : String)
deriving DecidableEq, Repr

/-- Python truthiness of an optional string: both a missing value and
the empty string are falsy (`if event.get("PhysicalResourceId"):`,
`if appid:`, `if date_format:`). -/
def truthyOpt : Option String → Option String
  | none => none
  | some s => if s = "" then none else some s

/-- Python `str.split(sep)` for a one character separator, on the
underlying character list. -/
def pySplitList (sep : Char) : List Char → List (List Char)
  | [] => [[]]
  | c :: cs =>
    if c = sep then [] :: pySplitList sep cs
    else
      match pySplitList sep cs with
      | [] => [[c]]
      | p :: ps => (c :: p) :: ps

/-- Python `str.split(sep)` for a one character separator. -/
def pySplit (sep : Char) (s : String) : List String :=
  (pySplitList sep s.toList).map (fun l => String.mk l)

/-- The ValueError raised by a failed two element tuple unpacking
`_, x = s.split("/")`. -/
def unpack2Err (n : Nat) : String :=
  if n < 2 then "ValueError: not enough values to unpack"
  else "ValueError: too many values to unpack"

/-- Lookup in the `ResourceProperties` mapping (`props.get(key)`);
property values are modelled as strings. -/
def propsGet (props : List (String × String)) (k : String) : Option String :=
  (props.find? (fun kv => kv.fst == k)).map (fun kv => kv.snd)

/-- The inbound lifecycle event, as the handlers read it:
`event["ResourceProperties"]` and the optional
`event["PhysicalResourceId"]`. -/
structure CfnEvent where
  resourceProperties : List (String × String)
  physicalResourceId : Option String
deriving DecidableEq, Repr

/-- Whether an `Except` result is a normal return (no exception). -/
def exOk {ε α : Type} : Except ε α → Bool
  | .ok _ => true
  | .error _ => false

/-- The identical idiom every handler's extract_params repeats
(e.g. lines 247-249, 328-329, 350-351, 516-518, 686-688):

    x = None
    if event.get("PhysicalResourceId"):
        _, x = event["PhysicalResourceId"].split("/")
    return \x7b ... "the_id": x ... \x7d

`mk` builds the handler's parameter mapping from the parsed optional
id; the ValueError of a failed two element unpack propagates. -/
def parsePid {α : Type} (pid : Option String) (mk : Option String → α) :
    Except String α :=
  match truthyOpt pid with
  | none => .ok (mk none)
  | some s =>
    match pySplit '/' s with
    | [_, the_id] => .ok (mk (some the_id))
    | parts => .error (unpack2Err parts.length)

/-! ## Collector handler (api.py lines 179-256) -/

/-- A collector as returned by the list endpoint
`sumologic_cli.collectors(...)`: the handler reads its `name` and `id`;
`collectorType` is what the `filter_type` argument filters on. -/
structure RCollector where
  id : Nat
  name : String
  collectorType : String
deriving DecidableEq, Repr

/-- The request body built by Collector.create, lines 202-209. -/
structure CollectorReq where
  collectorType : String
  name : String
  description : String
  category : Option String
deriving DecidableEq, Repr

def collectorReq (collector_type collector_name : String)
    (source_category : Option String) (description : String) : CollectorReq :=
  { collectorType := collector_type, name := collector_name,
    description := description, category := source_category }

/-- Oracle for the remote calls issued by Collector.create:
`create_collector` (the parsed collector id on success, or the raised
error) and the paginated list `collectors(limit=300, filter_type, offset)`
indexed by filter type; `collectorPages f` holds the successive
non-empty pages, every later page being empty. -/
structure CollectorCreateEnv where
  createCollector : CollectorReq → Except RemoteError Nat
  collectorPages : String → List (List RCollector)

/-- Test from line 215:
`hasattr(e, "response") and e.response.json()["code"] == "collectors.validation.name.duplicate"`. -/
def isDuplicateNameErr : RemoteError → Bool
  | .withResponse r => r.code == "collectors.validation.name.duplicate"
  | .noResponse _ => false

def collectorNotFoundMsg (collector_name : String) : String :=
  "Collector with name " ++ collector_name ++ " not found"

/-- Collector._get_collector_by_name, lines 187-198: walk the pages
(offset 0, 300, 600, ...) while they are non-empty, return the first
collector whose name matches exactly, raise if the pages run out. -/
def Collector.get_collector_by_name (collector_name : String) :
    List (List RCollector) → Except String RCollector
  | [] => .error (collectorNotFoundMsg collector_name)
  | p :: rest =>
    if p = [] then .error (collectorNotFoundMsg collector_name)
    else
      match p.find? (fun c => c.name == collector_name) with
      | some c => .ok c
      | none => Collector.get_collector_by_name collector_name rest

/-- Collector.create, lines 200-222: try `create_collector`; on the
duplicate-name error code fall back to the paginated name lookup
(filtered by `collector_type.lower()`); re-raise every other error;
raise the lookup failure. -/
def Collector.create (env : CollectorCreateEnv) (collector_type collector_name : String)
    (source_category : Option String) (description : String) :
    Except RemoteError (List (String × Nat) × Nat) :=
  match env.createCollector (collectorReq collector_type collector_name source_category description) with
  | .ok collector_id => .ok ([("COLLECTOR_ID", collector_id)], collector_id)
  | .error e =>
    if isDuplicateNameErr e then
      match Collector.get_collector_by_name collector_name
          (env.collectorPages collector_type.toLower) with
      | .ok collector => .ok ([("COLLECTOR_ID", collector.id)], collector.id)
      | .error msg => .error (.noResponse msg)
    else .error e

/-- The collector record fetched for update: the three fields the
handler overwrites (lines 227-229) plus the remaining fields of the
JSON body, which the handler leaves untouched. -/
structure CollectorRecord where
  category : Option String
  name : Option String
  description : Option String
  rest : List (String × String)
deriving DecidableEq, Repr

/-- Oracle for Collector.update: `collector(id)` returning the current
representation with its etag, and `update_collector(cv, etag)`
returning the id parsed out of the response. -/
structure CollectorUpdateEnv where
  collector : Nat → Except RemoteError (CollectorRecord × String)
  update_collector : CollectorRecord → String → Except RemoteError Nat

/-- The field mutation performed by Collector.update, lines 227-229. -/
def collectorMutate (cv : CollectorRecord) (collector_name : Option String)
    (source_category : Option String) (description : Option String) : CollectorRecord :=
  { cv with category := source_category, name := collector_name, description := description }

/-- Collector.update, lines 224-233: fetch `(cv, etag)`, overwrite
category, name and description, write back with the fetched etag.
(The `collector_type` parameter of the Python method is unused by its
body and kept here for signature fidelity.) -/
def Collector.update (env : CollectorUpdateEnv) (collector_id : Nat)
    (_collector_type : String) (collector_name : Option String)
    (source_category : Option String) (description : Option String) :
    Except RemoteError (List (String × Nat) × Nat) :=
  match env.collector collector_id with
  | .error e => .error e
  | .ok (cv, etag) =>
    match env.update_collector (collectorMutate cv collector_name source_category description) etag with
    | .error e => .error e
    | .ok new_id => .ok ([("COLLECTOR_ID", new_id)], new_id)

/-- Remote delete operations issued by the non-App handlers; the trace
of a delete run records which of them were invoked. -/
inductive RemoteCall where
  | deleteCollector (id : Nat)
  | deleteSource (collectorId : Nat) (id : Nat)
  | deleteConnection (id : Nat) (connectionType : String)
deriving DecidableEq, Repr

/-- Collector.delete, lines 235-243: only when `remove_on_delete_stack`
is true call `delete_collector`; otherwise just log.  `resp` is the
oracle value of the remote call (its response text, or the raised
error); the trace records whether the remote call happened. -/
def Collector.delete (resp : Except RemoteError String) (collector_id : Nat)
    (remove_on_delete_stack : Bool) : List RemoteCall × Except RemoteError Unit :=
  if remove_on_delete_stack then
    ([.deleteCollector collector_id], resp.map (fun _ => ()))
  else ([], .ok ())

/-- The parameter mapping returned by Collector.extract_params. -/
structure CollectorParams where
  collector_type : Option String
  collector_name : Option String
  source_category : Option String
  description : Option String
  collector_id : Option String
deriving DecidableEq, Repr

/-- Collector.extract_params, lines 245-256: when a (truthy)
PhysicalResourceId is present, two-element unpack of its `split("/")`
to recover the collector id; a ValueError from the unpacking
propagates. -/
def Collector.extract_params (event : CfnEvent) : Except String CollectorParams :=
  let props := event.resourceProperties
  parsePid event.physicalResourceId (fun collector_id =>
    { collector_type := propsGet props "CollectorType",
      collector_name := propsGet props "CollectorName",
      source_category := propsGet props "SourceCategory",
      description := propsGet props "Description",
      collector_id := collector_id })

/-! ### A consistent remote collector service, for the double-create
scenario.  Modelled from the spec (section 6): the remote service
stores the created collectors, refuses a duplicate name with the
`collectors.validation.name.duplicate` error code, and lists the stored
collectors (filtered by type, case-insensitively, matching the
handler passing `collector_type.lower()` as `filter_type`) in pages of
300. -/

structure CollectorSvc where
  collectors : List RCollector
  nextId : Nat
deriving DecidableEq, Repr

/-- Remote semantics of `create_collector`: duplicate-name collision or
creation of a fresh collector appended to the store. -/
def svcCreateCollector (s : CollectorSvc) (req : CollectorReq) :
    Except RemoteError Nat × CollectorSvc :=
  if s.collectors.any (fun c => c.name == req.name) then
    (.error (.withResponse
      { statusCode := 400, code := "collectors.validation.name.duplicate",
        errors := [], id := none }), s)
  else
    (.ok s.nextId,
     { collectors := s.collectors ++ [{ id := s.nextId, name := req.name,
                                        collectorType := req.collectorType }],
       nextId := s.nextId + 1 })

/-- Chunk a list into the successive pages of 300 a paginated listing
returns. -/
def pages300 : List RCollector → List (List RCollector)
  | [] => []
  | x :: xs => ((x :: xs).take 300) :: pages300 ((x :: xs).drop 300)
  termination_by l => l.length
  decreasing_by simp [List.length_drop]; omega

/-- Remote semantics of the paginated, type-filtered collector listing. -/
def svcPages (s : CollectorSvc) (filter_type : String) : List (List RCollector) :=
  pages300 (s.collectors.filter (fun c => c.collectorType.toLower == filter_type))

/-- One run of Collector.create against the consistent service: the
create attempt steps the service, and the subsequent listing (only
consulted on a collision) observes the resulting service state. -/
def collectorCreateOnSvc (s : CollectorSvc) (collector_type collector_name : String)
    (source_category : Option String) (description : String) :
    Except RemoteError (List (String × Nat) × Nat) × CollectorSvc :=
  match svcCreateCollector s (collectorReq collector_type collector_name source_category description) with
  | (resp, s') =>
    (Collector.create
      { createCollector := fun _ => resp, collectorPages := fun f => svcPages s' f }
      collector_type collector_name source_category description, s')

/-- The two results and two post-states of calling Collector.create
twice in a row with the same arguments. -/
structure TwoRuns where
  out1 : Except RemoteError (List (String × Nat) × Nat)
  out2 : Except RemoteError (List (String × Nat) × Nat)
  s1 : CollectorSvc
  s2 : CollectorSvc

def collectorCreateTwice (s : CollectorSvc) (collector_type collector_name : String)
    (source_category : Option String) (description : String) : TwoRuns :=
  let p1 := collectorCreateOnSvc s collector_type collector_name source_category description
  let p2 := collectorCreateOnSvc p1.snd collector_type collector_name source_category description
  { out1 := p1.fst, out2 := p2.fst, s1 := p1.snd, s2 := p2.snd }

/-! ## Connections handler (api.py lines 259-342) -/

/-- The request body built by Connections.create, lines 264-289. -/
structure ConnectionReq where
  type : String
  name : String
  description : String
  headers : List (String × String)
  defaultPayload : String
  url : String
  webhookType : String
deriving DecidableEq, Repr

/-- The constant `defaultPayload` string of lines 286 (braces written as
their character escapes). -/
def connectionDefaultPayload : String :=
  "\x7b\"Types\":\"HIPAA Controls\",\"Description\":\"This search\",\"GeneratorID\":\"InsertFindingsScheduledSearch\",\"Severity\":30,\"SourceUrl\":\"https://service.sumologic.com/ui/#/search/RmC8kAUGZbXrkj2rOFmUxmHtzINUgfJnFplh3QWY\",\"ComplianceStatus\":\"FAILED\",\"Rows\":\"[\x7b\\\"Timeslice\\\":1542719060000,\\\"finding_time\\\":\\\"1542719060000\\\",\\\"item_name\\\":\\\"A nice dashboard.png\\\",\\\"title\\\":\\\"Vulnerability\\\",\\\"resource_id\\\":\\\"10.178.11.43\\\",\\\"resource_type\\\":\\\"Other\\\"\x7d]\"\x7d"

/-- Oracle for Connections.create: `create_connection` returning the
`id` field parsed out of the response, or the raised error. -/
structure ConnectionsEnv where
  createConnection : ConnectionReq → Except RemoteError Nat

/-- Connections.create, lines 261-305.  Note the shape of the except
block: when the raised error carries a `response`, the code scans the
`errors` array for the `connection:name_already_exists` code, adopting
the optional top level `id` of the error body when it finds it, and
then falls through to the final return in every case; only an error
without a `response` attribute is re-raised. -/
def Connections.create (env : ConnectionsEnv) (type name description url
    username password region service_name webhook_type : String) :
    Except RemoteError (List (String × Option Nat) × Option Nat) :=
  let connection : ConnectionReq :=
    { type := type, name := name, description := description,
      headers := [("accessKey", username), ("secretKey", password),
                  ("awsRegion", region), ("serviceName", service_name)],
      defaultPayload := connectionDefaultPayload,
      url := url, webhookType := webhook_type }
  match env.createConnection connection with
  | .ok connection_id => .ok ([("CONNECTION_ID", some connection_id)], some connection_id)
  | .error (.withResponse r) =>
    let connection_id :=
      if r.errors.any (fun er => er.code == some "connection:name_already_exists")
      then r.id else none
    .ok ([("CONNECTION_ID", connection_id)], connection_id)
  | .error (.noResponse m) => .error (.noResponse m)

/-- Connections.delete, lines 319-324: conditional on the flag, calling
`delete_connection(connection_id, "WebhookConnection")`. -/
def Connections.delete (resp : Except RemoteError String) (connection_id : Nat)
    (remove_on_delete_stack : Bool) : List RemoteCall × Except RemoteError Unit :=
  if remove_on_delete_stack then
    ([.deleteConnection connection_id "WebhookConnection"], resp.map (fun _ => ()))
  else ([], .ok ())

/-- The parameter mapping returned by Connections.extract_params. -/
structure ConnectionsParams where
  type : Option String
  name : Option String
  description : Option String
  url : Option String
  username : Option String
  password : Option String
  region : Option String
  service_name : Option String
  webhook_type : Option String
  id : Option String
  connection_id : Option String
deriving DecidableEq, Repr

/-- Connections.extract_params, lines 326-342: the id parsed out of the
PhysicalResourceId is assigned to a local that the returned mapping
never reads; the returned `id` and `connection_id` entries come from
the property bag (`ConnectionId` / `connection_id`). -/
def Connections.extract_params (event : CfnEvent) : Except String ConnectionsParams :=
  let props := event.resourceProperties
  let params : ConnectionsParams :=
    { type := propsGet props "Type", name := propsGet props "Name",
      description := propsGet props "Description", url := propsGet props "URL",
      username := propsGet props "UserName", password := propsGet props "Password",
      region := propsGet props "Region", service_name := propsGet props "ServiceName",
      webhook_type := propsGet props "WebhookType",
      id := propsGet props "ConnectionId",
      connection_id := propsGet props "connection_id" }
  parsePid event.physicalResourceId (fun _connection_id => params)

/-! ## HTTPSource handler (api.py lines 462-526), AWSSource.delete
(lines 454-459) and BaseSource.extract_params (lines 347-358) -/

/-- A source as returned by the list endpoint
`sumologic_cli.sources(collector_id, limit=300)`. -/
structure RSource where
  id : Nat
  name : String
  url : String
deriving DecidableEq, Repr

/-- The request body built by HTTPSource.create, lines 469-476. -/
structure HttpSourceReq where
  sourceType : String
  name : String
  messagePerRequest : Bool
  category : Option String
  defaultDateFormats : Option (String × String)
deriving DecidableEq, Repr

/-- The Python default of the `date_locator` parameter of
HTTPSource.create, line 466. -/
def defaultDateLocator : String := "\"timestamp\": (.*),"

def httpSourceReq (source_name : String) (source_category : Option String)
    (date_format : Option String) (date_locator : String) : HttpSourceReq :=
  { sourceType := "HTTP", name := source_name, messagePerRequest := false,
    category := source_category,
    defaultDateFormats :=
      match truthyOpt date_format with
      | some df => some (df, date_locator)
      | none => none }

/-- Oracle for the remote calls issued by HTTPSource.create:
`create_source(collector_id, source)` returning the parsed `(id, url)`
on success, and the single page `sources(collector_id, limit=300)`
scanned after a collision (this handler does not paginate). -/
structure HTTPSourceEnv where
  createSource : Nat → HttpSourceReq → Except RemoteError (Nat × String)
  sources : Nat → List RSource

/-- HTTPSource.create, lines 465-493: try `create_source`; on the
duplicate-name error code scan the source list, keeping the last
exact name match (the loop has no break, and falls through returning
`None` ids when nothing matches); re-raise every other error. -/
def HTTPSource.create (env : HTTPSourceEnv) (collector_id : Nat)
    (source_name : String) (source_category : Option String)
    (date_format : Option String) (date_locator : String) :
    Except RemoteError (List (String × Option String) × Option Nat) :=
  match env.createSource collector_id (httpSourceReq source_name source_category date_format date_locator) with
  | .ok (source_id, endpoint) => .ok ([("SUMO_ENDPOINT", some endpoint)], some source_id)
  | .error e =>
    if isDuplicateNameErr e then
      match (env.sources collector_id).foldl
          (fun acc s => if s.name == source_name then (some s.id, some s.url) else acc)
          ((none : Option Nat), (none : Option String)) with
      | (source_id, endpoint) => .ok ([("SUMO_ENDPOINT", endpoint)], source_id)
    else .error e

/-- The source record fetched for update: the fields HTTPSource.update
overwrites (lines 498-501) plus the remaining fields of the JSON body,
which the handler leaves untouched. -/
structure SourceRecord where
  category : Option String
  name : Option String
  defaultDateFormats : Option (String × Option String)
  rest : List (String × String)
deriving DecidableEq, Repr

/-- The parsed body of a successful `update_source` response. -/
structure SourceUpdateResp where
  id : Nat
  url : String
deriving DecidableEq, Repr

/-- Oracle for HTTPSource.update: `source(collector_id, source_id)`
returning the current representation with its etag, and
`update_source(collector_id, sv, etag)`. -/
structure SourceUpdateEnv where
  source : Nat → Nat → Except RemoteError (SourceRecord × String)
  updateSource : Nat → SourceRecord → String → Except RemoteError SourceUpdateResp

/-- The field mutation performed by HTTPSource.update, lines 498-501:
overwrite category and name, and only when `date_format` is truthy
replace `defaultDateFormats`. -/
def httpSourceMutate (sv : SourceRecord) (source_name source_category : Option String)
    (date_format date_locator : Option String) : SourceRecord :=
  let sv1 := { sv with category := source_category, name := source_name }
  match truthyOpt date_format with
  | some df => { sv1 with defaultDateFormats := some (df, date_locator) }
  | none => sv1

def sourceUpdateOut (d : SourceUpdateResp) : List (String × String) × Nat :=
  ([("SUMO_ENDPOINT", d.url)], d.id)

/-- HTTPSource.update, lines 495-505: fetch `(sv, etag)`, mutate the
supplied fields, write back with the fetched etag, return the response
url and id. -/
def HTTPSource.update (env : SourceUpdateEnv) (collector_id source_id : Nat)
    (source_name source_category : Option String)
    (date_format date_locator : Option String) :
    Except RemoteError (List (String × String) × Nat) :=
  match env.source collector_id source_id with
  | .error e => .error e
  | .ok (sv, etag) =>
    (env.updateSource collector_id
      (httpSourceMutate sv source_name source_category date_format date_locator) etag).map
      sourceUpdateOut

/-- HTTPSource.delete, lines 507-512. -/
def HTTPSource.delete (resp : Except RemoteError String) (collector_id source_id : Nat)
    (remove_on_delete_stack : Bool) : List RemoteCall × Except RemoteError Unit :=
  if remove_on_delete_stack then
    ([.deleteSource collector_id source_id], resp.map (fun _ => ()))
  else ([], .ok ())

/-- AWSSource.delete, lines 454-459 (same body as HTTPSource.delete;
the extra `props` parameter of the Python method is unused). -/
def AWSSource.delete (resp : Except RemoteError String) (collector_id source_id : Nat)
    (remove_on_delete_stack : Bool) (_props : List (String × String)) :
    List RemoteCall × Except RemoteError Unit :=
  if remove_on_delete_stack then
    ([.deleteSource collector_id source_id], resp.map (fun _ => ()))
  else ([], .ok ())

/-- The parameter mapping returned by HTTPSource.extract_params. -/
structure HTTPSourceParams where
  collector_id : Option String
  source_name : Option String
  source_category : Option String
  date_format : Option String
  date_locator : Option String
  source_id : Option String
deriving DecidableEq, Repr

/-- HTTPSource.extract_params, lines 514-526. -/
def HTTPSource.extract_params (event : CfnEvent) : Except String HTTPSourceParams :=
  let props := event.resourceProperties
  parsePid event.physicalResourceId (fun source_id =>
    { collector_id := propsGet props "CollectorId",
      source_name := propsGet props "SourceName",
      source_category := propsGet props "SourceCategory",
      date_format := propsGet props "DateFormat",
      date_locator := propsGet props "DateLocatorRegex",
      source_id := source_id })

/-- The parameter mapping returned by BaseSource.extract_params
(inherited by AWSSource). -/
structure BaseSourceParams where
  collector_id : Option String
  source_name : Option String
  source_id : Option String
  props : List (String × String)
deriving DecidableEq, Repr

/-- BaseSource.extract_params, lines 347-358. -/
def BaseSource.extract_params (event : CfnEvent) : Except String BaseSourceParams :=
  let props := event.resourceProperties
  parsePid event.physicalResourceId (fun source_id =>
    { collector_id := propsGet props "CollectorId",
      source_name := propsGet props "SourceName",
      source_id := source_id, props := props })

/-! ## SumoResource.is_enterprise_or_trial_account (api.py lines 154-176) -/

/-- The parsed body of a `search_job_status` response: the handler only
reads `pendingErrors`. -/
structure JobStatusResp where
  pendingErrors : List String
deriving DecidableEq, Repr

/-- The synthetic guardduty benchmark query of lines 158-163. -/
def enterpriseSearchQuery : String :=
  "guardduty*\n                | \"IAMUser\" as targetresource\n                | \"2\" as sev\n                | \"UserPermissions\" as threatName\n                | \"Recon\" as threatPurpose\n                | benchmark percentage as global_percent from guardduty on threatpurpose=threatPurpose, threatname=threatName, severity=sev, resource=targetresource"

/-- Oracle for the search client used by the entitlement probe:
the current clock (`int(time.time())`), `search_job(query, fromTime,
toTime)` and `search_job_status(job)`. -/
structure SearchClient where
  nowEpochSeconds : Nat
  search_job : String → Nat → Nat → Except RemoteError Nat
  search_job_status : Nat → Except RemoteError JobStatusResp

/-- The except block of lines 172-176: an error whose `response` has
status code 403 yields False; everything else is re-raised. -/
def enterpriseProbeHandle : RemoteError → Except RemoteError Bool
  | .withResponse r =>
    if r.statusCode == 403 then .ok false else .error (.withResponse r)
  | .noResponse m => .error (.noResponse m)

/-- SumoResource.is_enterprise_or_trial_account, lines 154-176: run the
synthetic search over the last five minutes; a status with pending
errors means False, otherwise True; a 403 error response means False;
any other error is re-raised. -/
def SumoResource.is_enterprise_or_trial_account (c : SearchClient) :
    Except RemoteError Bool :=
  let to_time := c.nowEpochSeconds * 1000
  let from_time := to_time - 5 * 60 * 1000
  match c.search_job enterpriseSearchQuery from_time to_time with
  | .error e => enterpriseProbeHandle e
  | .ok job =>
    match c.search_job_status job with
    | .error e => enterpriseProbeHandle e
    | .ok st => if st.pendingErrors.length > 0 then .ok false else .ok true

/-! ## App handler (api.py lines 529-694) -/

/-- Substring occurrence over character lists. -/
def listContainsSub (needle : List Char) : List Char → Bool
  | [] => needle.isEmpty
  | c :: cs => needle.isPrefixOf (c :: cs) || listContainsSub needle cs

/-- Python `needle in haystack` substring test. -/
def pyInStr (needle hay : String) : Bool := listContainsSub needle.toList hay.toList

/-- ENTERPRISE_ONLY_APPS, line 531. -/
def ENTERPRISE_ONLY_APPS : List String :=
  ["Amazon GuardDuty Benchmark", "Global Intelligence for AWS CloudTrail"]

/-- Remote content-library calls the App handler can issue.
`getFolderWithToken` is the get-with-concurrency-token capability the
remote client offers (spec section 6); it is part of the observation
vocabulary so that its absence from a trace can be stated, and no App
method ever emits it. -/
inductive AppCall where
  | searchProbe
  | getPersonalFolder
  | createFolder (folderName : String)
  | importContent (folderId : String)
  | checkImportStatus (folderId : String) (jobId : String)
  | installApp (appId : String)
  | checkAppInstallStatus (jobId : String)
  | deleteFolder (folderId : String)
  | getFolderWithToken (folderId : String)
deriving DecidableEq, Repr

/-- A status response from `check_import_status` /
`check_app_install_status`: the job `status`, the `statusMessage` the
success branch parses, and the HTTP status code of the response (used
by `raise_for_status`). -/
structure AppStatusResp where
  status : String
  statusMessage : String
  httpStatus : Nat
deriving DecidableEq, Repr

/-- The body of a `get_personal_folder` response: its `id` and its
`children` (name/id pairs). -/
structure FolderStub where
  name : String
  id : String
deriving DecidableEq, Repr

structure PersonalFolderResp where
  id : String
  children : List FolderStub
deriving DecidableEq, Repr

/-- The app content produced by App._get_app_content (lines 566-581).
Modelled from the spec: the template fetch collaborator (spec section
6) downloads the app JSON from object storage, substitutes the
source-category tokens and stamps the name with the current time; its
body is HTTP transport and file IO outside the embedded lifecycle
logic, so its result (the handler only reads `name` and `description`)
is an oracle field. -/
structure AppContent where
  name : String
  description : String
deriving DecidableEq, Repr

/-- Oracle for the remote calls the App handler issues, plus its two
clock readings (`datetime.now()` for the install content name and for
the quickstart folder name). -/
structure AppClient where
  search : SearchClient
  personalFolder : PersonalFolderResp
  createFolderResp : Except RemoteError String
  importJobId : String
  importStatusList : List AppStatusResp
  installJobId : String
  installStatusList : List AppStatusResp
  appContent : AppContent
  nowSuffix : String
  todayStr : String
  deleteFolderResp : Except RemoteError String

/-- App._wait_for_app_install, lines 593-601: poll
`check_app_install_status(job_id)` while the status is "InProgress";
return the first response whose status is anything else.  The call
trace records one entry per poll.  `none` means the supplied response
list ran out while still in progress (the Python loop would keep
polling forever; the loop has no poll bound). -/
def waitForAppInstall (job_id : String) :
    List AppStatusResp → List AppCall × Option AppStatusResp
  | [] => ([], none)
  | r :: rest =>
    if r.status == "InProgress" then
      match waitForAppInstall job_id rest with
      | (t, fin) => (AppCall.checkAppInstallStatus job_id :: t, fin)
    else ([AppCall.checkAppInstallStatus job_id], some r)

/-- App._wait_for_folder_creation, lines 583-591: the same loop over
`check_import_status(folder_id, job_id)`; the final response is only
logged. -/
def waitForFolderCreation (folder_id job_id : String) :
    List AppStatusResp → List AppCall × Option AppStatusResp
  | [] => ([], none)
  | r :: rest =>
    if r.status == "InProgress" then
      match waitForFolderCreation folder_id job_id rest with
      | (t, fin) => (AppCall.checkImportStatus folder_id job_id :: t, fin)
    else ([AppCall.checkImportStatus folder_id job_id], some r)

/-- Scanner for the regex of line 559: at each position, if the text
starts with "ContentId(" followed by at least one digit, return the
maximal digit run; otherwise move one character right. -/
def scanContentId : List Char → Option String
  | [] => none
  | c :: cs =>
    if ("ContentId(").toList.isPrefixOf (c :: cs) then
      match ((c :: cs).drop ("ContentId(").toList.length).takeWhile Char.isDigit with
      | [] => scanContentId cs
      | d :: ds => some (String.mk (d :: ds))
    else scanContentId cs

/-- The regex search of line 559,
`re.search("(?<=ContentId\\()\\d+", msg)`: the first maximal non-empty
digit run that directly follows an occurrence of "ContentId(". -/
def regexContentId (msg : String) : Option String := scanContentId msg.toList

/-- App._get_app_folder, lines 551-564: try
`create_folder(name, description[:255], parent_id)`; if the raised
error carries a response with a non-empty `errors` array, recover the
folder id from the first error message via the ContentId regex (a
failed match silently leaves the folder id `None`); otherwise
re-raise. -/
def App.get_app_folder (c : AppClient) (appdata : AppContent) :
    List AppCall × Except RemoteError (Option String) :=
  ([AppCall.createFolder appdata.name],
   match c.createFolderResp with
   | .ok folder_id => .ok (some folder_id)
   | .error (.withResponse r) =>
     match r.errors with
     | e0 :: _ => .ok (regexContentId e0.message)
     | [] => .error (.withResponse r)
   | .error (.noResponse m) => .error (.noResponse m))

/-- App._create_or_fetch_quickstart_apps_parent_folder, lines 603-620:
create a dated quickstart folder under the personal folder; on an
error response with a non-empty `errors` array containing the
`content:duplicate_content` code, rediscover the folder among the
personal folder children by exact name (falling through to `None`
when nothing matches); otherwise re-raise. -/
def App.create_or_fetch_quickstart_apps_parent_folder (c : AppClient) :
    List AppCall × Except RemoteError (Option String) :=
  let folder_name := "SumoLogic Amazon QuickStart Apps " ++ c.todayStr
  ([AppCall.getPersonalFolder, AppCall.createFolder folder_name],
   match c.createFolderResp with
   | .ok folder_id => .ok (some folder_id)
   | .error (.withResponse r) =>
     match r.errors with
     | [] => .error (.withResponse r)
     | errs =>
       if errs.any (fun er => er.code == some "content:duplicate_content") then
         .ok (((c.personalFolder.children.find? (fun ch => ch.name == folder_name)).map
           (fun ch => ch.id)))
       else .ok none
   | .error (.noResponse m) => .error (.noResponse m))

/-- The content dict built by App.create_by_install_api, lines 647-648:
the app name stamped with `datetime.now().strftime("_%d-%b-%Y_%H:%M:%S.%f")`
(the oracle field `nowSuffix`), the app name as description, the
source parameters and the destination folder. -/
structure AppInstallContent where
  name : String
  description : String
  dataSourceValues : List (String × String)
  destinationFolderId : Option String
deriving DecidableEq, Repr

/-- App.create_by_install_api, lines 638-662: entitlement gate for the
enterprise-only apps, destination folder selection (quickstart parent
folder or personal folder), `install_app`, then the install poll loop.
On a final "Success" status the app folder id is parsed out of
`statusMessage.split(":")[1]`; otherwise the code calls
`response.raise_for_status()` and, when that does not raise (HTTP
status below 400), falls through returning Python `None`, which every
caller immediately fails to unpack — modelled as the TypeError
error. -/
def App.create_by_install_api (c : AppClient) (appid appname : String)
    (source_params : List (String × String)) :
    List AppCall × Except RemoteError (List (String × String) × Option String) :=
  let gateTrace := if ENTERPRISE_ONLY_APPS.contains appname then [AppCall.searchProbe] else []
  let gate : Except RemoteError Unit :=
    if ENTERPRISE_ONLY_APPS.contains appname then
      match SumoResource.is_enterprise_or_trial_account c.search with
      | .error e => .error e
      | .ok false => .error (.noResponse
          (appname ++ " is available to Enterprise or Trial Account Type only."))
      | .ok true => .ok ()
    else .ok ()
  match gate with
  | .error e => (gateTrace, .error e)
  | .ok _ =>
    let fsel :=
      if pyInStr "Amazon QuickStart" appname then
        App.create_or_fetch_quickstart_apps_parent_folder c
      else ([AppCall.getPersonalFolder], .ok (some c.personalFolder.id))
    match fsel with
    | (ftrace, .error e) => (gateTrace ++ ftrace, .error e)
    | (ftrace, .ok folder_id) =>
      let content : AppInstallContent :=
        { name := appname ++ c.nowSuffix, description := appname,
          dataSourceValues := source_params, destinationFolderId := folder_id }
      let job_id := c.installJobId
      match waitForAppInstall job_id c.installStatusList with
      | (wtrace, fin) =>
        let trace := gateTrace ++ ftrace ++ [AppCall.installApp appid] ++ wtrace
        match fin with
        | none => (trace, .error (.noResponse
            "unbounded polling: the status oracle ran out while still InProgress"))
        | some r =>
          if r.status == "Success" then
            match pySplit ':' r.statusMessage with
            | _ :: app_folder_id :: _ =>
              (trace, .ok ([("APP_FOLDER_NAME", content.name)], some app_folder_id))
            | _ => (trace, .error (.noResponse "IndexError: list index out of range"))
          else
            if 400 ≤ r.httpStatus then
              (trace, .error (.withResponse
                { statusCode := r.httpStatus, code := "", errors := [], id := none }))
            else
              (trace, .error (.noResponse "TypeError: cannot unpack non-sequence None"))

/-- App.create_by_import_api, lines 622-636: entitlement gate, template
fetch, personal folder lookup, app folder creation (collision
tolerant), `import_content` and the import poll loop; returns the app
content name and the (possibly `None`) app folder id. -/
def App.create_by_import_api (c : AppClient) (appname : String)
    (source_params : List (String × String)) :
    List AppCall × Except RemoteError (List (String × String) × Option String) :=
  let gateTrace := if ENTERPRISE_ONLY_APPS.contains appname then [AppCall.searchProbe] else []
  let gate : Except RemoteError Unit :=
    if ENTERPRISE_ONLY_APPS.contains appname then
      match SumoResource.is_enterprise_or_trial_account c.search with
      | .error e => .error e
      | .ok false => .error (.noResponse
          (appname ++ " is available to Enterprise or Trial Account Type only."))
      | .ok true => .ok ()
    else .ok ()
  match gate with
  | .error e => (gateTrace, .error e)
  | .ok _ =>
    let content := c.appContent
    let personal_folder_id := c.personalFolder.id
    match App.get_app_folder c content with
    | (ftrace, .error e) => (gateTrace ++ [AppCall.getPersonalFolder] ++ ftrace, .error e)
    | (ftrace, .ok app_folder_id) =>
      let job_id := c.importJobId
      match waitForFolderCreation personal_folder_id job_id c.importStatusList with
      | (wtrace, fin) =>
        let trace := gateTrace ++ [AppCall.getPersonalFolder] ++ ftrace
          ++ [AppCall.importContent personal_folder_id] ++ wtrace
        match fin with
        | none => (trace, .error (.noResponse
            "unbounded polling: the status oracle ran out while still InProgress"))
        | some _ => (trace, .ok ([("APP_FOLDER_NAME", content.name)], app_folder_id))

/-- App.create, lines 664-668: dispatch on the truthiness of `appid`. -/
def App.create (c : AppClient) (appname : String)
    (source_params : List (String × String)) (appid : Option String) :
    List AppCall × Except RemoteError (List (String × String) × Option String) :=
  match truthyOpt appid with
  | some aid => App.create_by_install_api c aid appname source_params
  | none => App.create_by_import_api c appname source_params

/-- App.delete, lines 677-682. -/
def App.delete (c : AppClient) (app_folder_id : String)
    (remove_on_delete_stack : Bool) : List AppCall × Except RemoteError Unit :=
  if remove_on_delete_stack then
    ([AppCall.deleteFolder app_folder_id], c.deleteFolderResp.map (fun _ => ()))
  else ([], .ok ())

/-- App.update, lines 671-675: delete the existing app folder
(`remove_on_delete_stack=True`) and create the app again. -/
def App.update (c : AppClient) (app_folder_id : String) (appname : String)
    (source_params : List (String × String)) (appid : Option String) :
    List AppCall × Except RemoteError (List (String × String) × Option String) :=
  match App.delete c app_folder_id true with
  | (t1, .error e) => (t1, .error e)
  | (t1, .ok _) =>
    match App.create c appname source_params appid with
    | (t2, r2) => (t1 ++ t2, r2)

/-- The parameter mapping returned by App.extract_params. -/
structure AppParams where
  appid : Option String
  appname : Option String
  source_params : Option String
  app_folder_id : Option String
deriving DecidableEq, Repr

/-- App.extract_params, lines 684-694. -/
def App.extract_params (event : CfnEvent) : Except String AppParams :=
  let props := event.resourceProperties
  parsePid event.physicalResourceId (fun app_folder_id =>
    { appid := propsGet props "AppId", appname := propsGet props "AppName",
      source_params := propsGet props "AppSources",
      app_folder_id := app_folder_id })

/-! ## Concrete oracle environments and small helper definitions used
by the statements below -/

/-- Single-pass name lookup over a flat collector list: what the
paginated walk of _get_collector_by_name amounts to over the
concatenation of its pages. -/
def findAdopt (collector_name : String) (l : List RCollector) : Except String RCollector :=
  match l.find? (fun c => c.name == collector_name) with
  | some c => .ok c
  | none => .error (collectorNotFoundMsg collector_name)

/-- Whether an optional PhysicalResourceId is absent, empty (falsy) or
has exactly one slash — the condition under which the extract_params
parsing returns normally. -/
def pidSlashOk : Option String → Bool
  | none => true
  | some s => if s = "" then true else s.toList.count '/' == 1

/-- The duplicate-name collision error of the collector and source
create endpoints. -/
def dupNameErr : RemoteError :=
  .withResponse { statusCode := 400, code := "collectors.validation.name.duplicate",
                  errors := [], id := none }

/-- A remote validation error with a response but a different code. -/
def otherCodeErr : RemoteError :=
  .withResponse { statusCode := 400, code := "collectors.validation.invalid",
                  errors := [], id := none }

/-- A not-found error response, as the remote API reports a delete of
an id that no longer exists (spec section 6: a typed error with an
HTTP-style status). -/
def notFoundErr : RemoteError :=
  .withResponse { statusCode := 404, code := "collectors.collector.invalid",
                  errors := [], id := none }

/-- Collector create oracle: the create call always reports the
duplicate-name collision, and the listing holds one page with a single
collector of a different name. -/
def collectorDupMissEnv : CollectorCreateEnv :=
  { createCollector := fun _ => .error dupNameErr,
    collectorPages := fun _ => [[{ id := 9, name := "OtherCollector", collectorType := "hosted" }]] }

/-- Collector create oracle failing with a non-collision error. -/
def collectorOtherErrEnv : CollectorCreateEnv :=
  { createCollector := fun _ => .error otherCodeErr, collectorPages := fun _ => [] }

/-- HTTP source create oracle failing with a non-collision error. -/
def httpOtherErrEnv : HTTPSourceEnv :=
  { createSource := fun _ _ => .error otherCodeErr, sources := fun _ => [] }

/-- HTTP source create oracle: the create call reports the
duplicate-name collision, and the source listing holds no source of
the requested name. -/
def httpDupMissEnv : HTTPSourceEnv :=
  { createSource := fun _ _ => .error dupNameErr,
    sources := fun _ => [{ id := 9, name := "OtherSource", url := "https://endpoint9" }] }

/-- Connection create oracle that succeeds with id 5. -/
def connCreateOkEnv : ConnectionsEnv := { createConnection := fun _ => .ok 5 }

/-- Connection create oracle raising the name-collision error; the
error body carries no top level id (spec section 6 only guarantees a
status and an error code on error bodies). -/
def connCollisionEnv : ConnectionsEnv :=
  { createConnection := fun _ => .error (.withResponse
      { statusCode := 400, code := "",
        errors := [{ code := some "connection:name_already_exists",
                     message := "name already exists" }], id := none }) }

/-- Connection create oracle raising a non-collision validation error
(an error response whose code differs from the collision code). -/
def connOtherErrEnv : ConnectionsEnv :=
  { createConnection := fun _ => .error (.withResponse
      { statusCode := 400, code := "",
        errors := [{ code := some "connection:invalid_url",
                     message := "bad url" }], id := none }) }

/-- A stale-concurrency-token rejection of a write. -/
def staleErr : RemoteError :=
  .withResponse { statusCode := 412, code := "etag.mismatch", errors := [], id := none }

/-- A fetched source representation carrying an untouched extra field. -/
def svFetched : SourceRecord :=
  { category := some "Labs/old", name := some "OldSource",
    defaultDateFormats := none, rest := [("automaticDateParsing", "true")] }

/-- Source update oracle: the fetch returns `svFetched` with etag
"etag-77"; the write is rejected as stale. -/
def staleSourceUpdateEnv : SourceUpdateEnv :=
  { source := fun _ _ => .ok (svFetched, "etag-77"),
    updateSource := fun _ _ _ => .error staleErr }

/-- The output-attributes/physical-id pair Collector.update builds from
the id parsed out of the write response (lines 231-233). -/
def collectorUpdateOut (new_id : Nat) : List (String × Nat) × Nat :=
  ([("COLLECTOR_ID", new_id)], new_id)

/-- A fetched collector representation carrying an untouched extra
field. -/
def cvFetched : CollectorRecord :=
  { category := some "Labs/old", name := some "OldCollector",
    description := some "old description", rest := [("timeZone", "UTC")] }

/-- Collector update oracle: the fetch returns `cvFetched` with etag
"etag-12"; the write is rejected as stale. -/
def staleCollectorUpdateEnv : CollectorUpdateEnv :=
  { collector := fun _ => .ok (cvFetched, "etag-12"),
    update_collector := fun _ _ => .error staleErr }

/-- A search client whose job submission immediately yields a clean
status. -/
def searchIdleClient : SearchClient :=
  { nowEpochSeconds := 1760227200,
    search_job := fun _ _ _ => .ok 1,
    search_job_status := fun _ => .ok { pendingErrors := [] } }

/-- A search client rejecting the job submission with HTTP 403. -/
def search403Client : SearchClient :=
  { nowEpochSeconds := 1760227200,
    search_job := fun _ _ _ => .error (.withResponse
      { statusCode := 403, code := "", errors := [], id := none }),
    search_job_status := fun _ => .ok { pendingErrors := [] } }

/-- A search client rejecting the job submission with HTTP 500. -/
def search500Client : SearchClient :=
  { nowEpochSeconds := 1760227200,
    search_job := fun _ _ _ => .error (.withResponse
      { statusCode := 500, code := "", errors := [], id := none }),
    search_job_status := fun _ => .ok { pendingErrors := [] } }

def inProgressResp : AppStatusResp :=
  { status := "InProgress", statusMessage := "", httpStatus := 200 }

def successResp : AppStatusResp :=
  { status := "Success", statusMessage := "installed:folder9901", httpStatus := 200 }

/-- An app client for a plain (non-enterprise, non-quickstart) app:
install jobs go in progress twice and then succeed. -/
def appClientEx : AppClient :=
  { search := searchIdleClient,
    personalFolder := { id := "pfolder1", children := [] },
    createFolderResp := .ok "qfolder1",
    importJobId := "impjob1",
    importStatusList := [successResp],
    installJobId := "instjob7",
    installStatusList := [inProgressResp, inProgressResp, successResp],
    appContent := { name := "Amazon CloudTrail-2026-10-12 00:00:00", description := "CloudTrail app" },
    nowSuffix := "_12-Oct-2026_00:00:00.000000",
    todayStr := "12-10-2026",
    deleteFolderResp := .ok "ok" }

/-- Recognizer for the get-with-concurrency-token client call. -/
def isGetFolderWithToken : AppCall → Bool
  | .getFolderWithToken _ => true
  | _ => false

def notGetFolderWithToken (a : AppCall) : Bool := ! isGetFolderWithToken a

/-- The two identifier entries of a Connections parameter mapping. -/
def connIdFields (p : ConnectionsParams) : Option String × Option String :=
  (p.id, p.connection_id)

/-- A fresh empty remote collector service. -/
def svc0 : CollectorSvc := { collectors := [], nextId := 100 }

/-! ## Helper lemmas -/

theorem pySplitList_ne_nil (sep : Char) (l : List Char) : pySplitList sep l ≠ [] := by
  cases l with
  | nil => simp [pySplitList]
  | cons c cs =>
    simp only [pySplitList]
    by_cases hc : c = sep
    · simp [hc]
    · simp only [if_neg hc]
      cases pySplitList sep cs <;> simp

theorem pySplitList_length (sep : Char) (l : List Char) :
    (pySplitList sep l).length = l.count sep + 1 := by
  induction l with
  | nil => rfl
  | cons c cs ih =>
    simp only [pySplitList, List.count_cons]
    by_cases hc : c = sep
    · simp [hc, ih]
    · simp only [if_neg hc]
      have hcb : (c == sep) = false := by simp [hc]
      cases hp : pySplitList sep cs with
      | nil => exact absurd hp (pySplitList_ne_nil sep cs)
      | cons p ps =>
        rw [hp] at ih
        simp only [List.length_cons] at ih ⊢
        simp [hcb, ih]

theorem pySplit_length (sep : Char) (s : String) :
    (pySplit sep s).length = s.toList.count sep + 1 := by
  simp [pySplit, pySplitList_length]

theorem exOk_parsePid {α : Type} (pid : Option String) (mk : Option String → α) :
    exOk (parsePid pid mk) = pidSlashOk pid := by
  cases pid with
  | none => rfl
  | some s =>
    by_cases hs : s = ""
    · subst hs; rfl
    · simp only [parsePid, truthyOpt, if_neg hs, pidSlashOk]
      have hlen : (pySplit '/' s).length = s.toList.count '/' + 1 := pySplit_length '/' s
      rcases hp : pySplit '/' s with _ | ⟨a, _ | ⟨b, _ | ⟨c3, tl3⟩⟩⟩ <;> rw [hp] at hlen <;>
        simp only [List.length_nil, List.length_cons, String.toList] at hlen
      · omega
      · have h0 : List.count '/' s.data = 0 := by omega
        simp [exOk, h0]
      · have h1 : List.count '/' s.data = 1 := by omega
        simp [exOk, h1]
      · have h2 : List.count '/' s.data = tl3.length + 2 := by omega
        simp [exOk, h2]

theorem get_collector_by_name_pages300 (nm : String) (l : List RCollector) :
    Collector.get_collector_by_name nm (pages300 l) = findAdopt nm l := by
  induction l using pages300.induct with
  | case1 => simp [pages300, Collector.get_collector_by_name, findAdopt]
  | case2 x xs ih =>
    rw [pages300]
    have hne : ((x :: xs).take 300) ≠ [] := by simp
    simp only [Collector.get_collector_by_name, if_neg hne]
    cases hf : ((x :: xs).take 300).find? (fun c => c.name == nm) with
    | some c =>
      have hfind : (x :: xs).find? (fun c => c.name == nm) = some c := by
        conv_lhs => rw [← List.take_append_drop 300 (x :: xs)]
        rw [List.find?_append, hf]
        rfl
      simp [findAdopt, hfind]
    | none =>
      rw [ih]
      have hfind : (x :: xs).find? (fun c => c.name == nm)
          = ((x :: xs).drop 300).find? (fun c => c.name == nm) := by
        conv_lhs => rw [← List.take_append_drop 300 (x :: xs)]
        rw [List.find?_append, hf]
        rfl
      simp [findAdopt, hfind]

/-! ## Claim theorems -/

/-- C5: In the app-install polling loop, given a status endpoint whose
successive responses are InProgress, InProgress, Success, the handler
polls the status endpoint exactly three times (three
check_app_install_status calls in the trace) and returns the Success
response payload. -/
theorem c5_poll_loop_three_polls :
    waitForAppInstall "instjob7" [inProgressResp, inProgressResp, successResp] =
      ([AppCall.checkAppInstallStatus "instjob7", AppCall.checkAppInstallStatus "instjob7",
        AppCall.checkAppInstallStatus "instjob7"], some successResp) := by
  rfl

/-- C6: For every handler taking the remove_on_delete_stack flag
(Collector, Connections, AWSSource, HTTPSource, App), delete called
with the flag false issues no remote call at all (empty remote call
trace, so the remote object is untouched) and returns normally. -/
theorem c6_delete_flag_false_no_remote_call (r1 r2 r3 r4 : Except RemoteError String)
    (c : AppClient) (cid sid conn : Nat) (fid : String) (props : List (String × String)) :
    Collector.delete r1 cid false = ([], .ok ()) ∧
    Connections.delete r2 conn false = ([], .ok ()) ∧
    AWSSource.delete r3 cid sid false props = ([], .ok ()) ∧
    HTTPSource.delete r4 cid sid false = ([], .ok ()) ∧
    App.delete c fid false = ([], .ok ()) :=
  ⟨rfl, rfl, rfl, rfl, rfl⟩

/-- C7 (amended): delete with remove_on_delete_stack true issues the
remote delete and returns exactly the remote client's outcome: it
completes without raising when the client call succeeds, and any error
the client reports — including a not-found error for an already
deleted id — propagates; the handlers contain no
not-found-as-success handling. -/
theorem c7_delete_flag_true_is_client_outcome (resp : Except RemoteError String)
    (cid sid conn : Nat) :
    HTTPSource.delete resp cid sid true =
      ([RemoteCall.deleteSource cid sid], resp.map (fun _ => ())) ∧
    Connections.delete resp conn true =
      ([RemoteCall.deleteConnection conn "WebhookConnection"], resp.map (fun _ => ())) ∧
    Collector.delete resp cid true =
      ([RemoteCall.deleteCollector cid], resp.map (fun _ => ())) :=
  ⟨rfl, rfl, rfl⟩

/-- C7 counterexample: HTTPSource.delete with the flag true against an
id the remote reports as not found (already deleted) raises the
not-found error instead of completing without raising. -/
theorem c7_counterexample_not_found_raises :
    HTTPSource.delete (.error notFoundErr) 10 20 true =
      ([RemoteCall.deleteSource 10 20], .error notFoundErr) :=
  rfl

/-- C8 (amended): extract_params applied to an event whose
PhysicalResourceId is "prefix/abc123" returns a mapping whose
resource-id field is "abc123" for the Collector, BaseSource,
HTTPSource and App handlers; the Connections handler discards the
parsed id (see the counterexample). -/
theorem c8_extract_params_parses_remote_id (props : List (String × String)) :
    (Collector.extract_params
      { resourceProperties := props, physicalResourceId := some "prefix/abc123" }).map
        CollectorParams.collector_id = .ok (some "abc123") ∧
    (BaseSource.extract_params
      { resourceProperties := props, physicalResourceId := some "prefix/abc123" }).map
        BaseSourceParams.source_id = .ok (some "abc123") ∧
    (HTTPSource.extract_params
      { resourceProperties := props, physicalResourceId := some "prefix/abc123" }).map
        HTTPSourceParams.source_id = .ok (some "abc123") ∧
    (App.extract_params
      { resourceProperties := props, physicalResourceId := some "prefix/abc123" }).map
        AppParams.app_folder_id = .ok (some "abc123") :=
  ⟨rfl, rfl, rfl, rfl⟩

/-- C8 counterexample: Connections.extract_params on an event whose
PhysicalResourceId is "prefix/abc123" (and an empty property bag)
returns a mapping whose id and connection_id entries are both None —
the parsed remote id "abc123" is discarded. -/
theorem c8_counterexample_connections_discard :
    (Connections.extract_params
      { resourceProperties := [], physicalResourceId := some "prefix/abc123" }).map
        connIdFields = .ok (none, none) :=
  rfl

/-- C9: the enterprise-entitlement probe returns False without raising
when the search client fails with an HTTP 403 response, and re-raises
any error response whose status is not 403. -/
theorem c9_enterprise_probe (c : SearchClient) (r : ErrResponse)
    (hj : c.search_job enterpriseSearchQuery (c.nowEpochSeconds * 1000 - 5 * 60 * 1000)
        (c.nowEpochSeconds * 1000) = .error (.withResponse r)) :
    SumoResource.is_enterprise_or_trial_account c =
      if r.statusCode == 403 then .ok false else .error (.withResponse r) := by
  simp only [SumoResource.is_enterprise_or_trial_account]
  rw [hj]
  simp [enterpriseProbeHandle]

/-- C9 witness: the probe at a concrete 403 client and a concrete 500
client. -/
theorem c9_witness :
    SumoResource.is_enterprise_or_trial_account search403Client = .ok false ∧
    SumoResource.is_enterprise_or_trial_account search500Client =
      .error (.withResponse { statusCode := 500, code := "", errors := [], id := none }) := by
  constructor
  · have h := c9_enterprise_probe search403Client
      { statusCode := 403, code := "", errors := [], id := none } rfl
    simpa using h
  · have h := c9_enterprise_probe search500Client
      { statusCode := 500, code := "", errors := [], id := none } rfl
    simpa using h

/-- C10 (amended): for every handler, extract_params returns normally
exactly when the PhysicalResourceId is absent, empty (Python-falsy, so
the parsing is skipped) or contains exactly one "/" character; a
non-empty id with zero or more than one "/" makes the two-element
unpacking raise. -/
theorem c10_extract_params_slash_arity (props : List (String × String)) (pid : Option String) :
    exOk (Collector.extract_params { resourceProperties := props, physicalResourceId := pid })
      = pidSlashOk pid ∧
    exOk (Connections.extract_params { resourceProperties := props, physicalResourceId := pid })
      = pidSlashOk pid ∧
    exOk (BaseSource.extract_params { resourceProperties := props, physicalResourceId := pid })
      = pidSlashOk pid ∧
    exOk (HTTPSource.extract_params { resourceProperties := props, physicalResourceId := pid })
      = pidSlashOk pid ∧
    exOk (App.extract_params { resourceProperties := props, physicalResourceId := pid })
      = pidSlashOk pid := by
  refine ⟨?_, ?_, ?_, ?_, ?_⟩ <;>
    simp only [Collector.extract_params, Connections.extract_params, BaseSource.extract_params,
      HTTPSource.extract_params, App.extract_params] <;>
    exact exOk_parsePid _ _

/-- C10 counterexample: a present but empty PhysicalResourceId contains
zero "/" characters, yet extract_params returns normally (the Python
truthiness check skips the unpacking), contradicting the claim that a
zero-slash id makes extract_params raise. -/
theorem c10_counterexample_empty_pid :
    exOk (Collector.extract_params { resourceProperties := [], physicalResourceId := some "" })
      = true ∧
    List.count '/' "".toList = 0 :=
  ⟨rfl, rfl⟩

/-- C2 (amended): for Collector.create and HTTPSource.create, every
remote error whose code is not the duplicate-name collision code
propagates to the caller unchanged; Connections.create does not (see
the counterexample). -/
theorem c2_noncollision_errors_propagate (envC : CollectorCreateEnv) (envH : HTTPSourceEnv)
    (ct nm d : String) (cat : Option String) (cid : Nat) (sn : String)
    (sc df : Option String) (dl : String) (e1 e2 : RemoteError)
    (h1 : envC.createCollector (collectorReq ct nm cat d) = .error e1)
    (h2 : isDuplicateNameErr e1 = false)
    (h3 : envH.createSource cid (httpSourceReq sn sc df dl) = .error e2)
    (h4 : isDuplicateNameErr e2 = false) :
    Collector.create envC ct nm cat d = .error e1 ∧
    HTTPSource.create envH cid sn sc df dl = .error e2 := by
  constructor
  · simp only [Collector.create]
    rw [h1]
    simp [h2]
  · simp only [HTTPSource.create]
    rw [h3]
    simp [h4]

/-- C2 witness: the propagation theorem applied to concrete oracle
environments failing with a non-collision validation error. -/
theorem c2_witness :
    Collector.create collectorOtherErrEnv "Hosted" "TestCollector" none "" = .error otherCodeErr ∧
    HTTPSource.create httpOtherErrEnv 1 "TestSource" none none defaultDateLocator
      = .error otherCodeErr :=
  c2_noncollision_errors_propagate collectorOtherErrEnv httpOtherErrEnv "Hosted" "TestCollector"
    "" none 1 "TestSource" none none defaultDateLocator otherCodeErr otherCodeErr
    rfl rfl rfl rfl

/-- C2 counterexample: Connections.create, given a remote error that
carries a response whose code is not the name-collision code, returns
a success result with a null connection id instead of propagating the
error. -/
theorem c2_counterexample_connections_swallow :
    Connections.create connOtherErrEnv "AWSLambda" "TestConnection" "desc" "https://hook"
      "user" "pass" "us-east-1" "securityhub" "AWSLambda"
      = .ok ([("CONNECTION_ID", none)], none) :=
  rfl

/-- C4 (amended): for the Collector handler, when the remote create
reports the name collision and the paginated name lookup finds no
collector of that exact name, create fails with the
"Collector with name X not found" error rather than returning a
result.  The source handlers return a result with null ids instead
(see the counterexample). -/
theorem c4_collector_not_found_after_collision (env : CollectorCreateEnv) (ct nm d : String)
    (cat : Option String) (e : RemoteError) (m : String)
    (h1 : env.createCollector (collectorReq ct nm cat d) = .error e)
    (h2 : isDuplicateNameErr e = true)
    (h3 : Collector.get_collector_by_name nm (env.collectorPages ct.toLower) = .error m) :
    Collector.create env ct nm cat d = .error (.noResponse m) := by
  simp only [Collector.create]
  rw [h1]
  simp [h2, h3]

/-- C4 witness: the theorem applied to a concrete oracle that reports
the collision while its listing holds only a collector of a different
name. -/
theorem c4_witness :
    Collector.create collectorDupMissEnv "Hosted" "TestCollector" none "" =
      .error (.noResponse (collectorNotFoundMsg "TestCollector")) :=
  c4_collector_not_found_after_collision collectorDupMissEnv "Hosted" "TestCollector" ""
    none dupNameErr (collectorNotFoundMsg "TestCollector") rfl rfl rfl

/-- C4 counterexample: HTTPSource.create, given the name-collision
error and a source listing containing no source of the requested name,
returns a result with null endpoint and null id instead of failing
with a not-found-after-collision error. -/
theorem c4_counterexample_http_source :
    HTTPSource.create httpDupMissEnv 1 "TestSource" none none defaultDateLocator =
      .ok ([("SUMO_ENDPOINT", none)], none) :=
  rfl

/-- C3 (amended): the fetch-and-write update handlers (HTTPSource and
Collector embedded here) fetch the current remote representation
together with its etag, mutate only the fields the caller supplied
(all other fields of the fetched record are preserved, and the
HTTPSource date format is preserved when none is supplied), and their
result is exactly the outcome of writing the mutated record back with
the fetched etag — so a stale-token rejection of the write propagates
to the caller.  App.update does none of this (see the
counterexample). -/
theorem c3_update_fetch_mutate_writeback (env : SourceUpdateEnv) (cid sid : Nat)
    (sn sc df dl : Option String) (sv : SourceRecord) (etag : String)
    (envCol : CollectorUpdateEnv) (colId : Nat) (ctype : String)
    (cname csc cdesc : Option String) (cv : CollectorRecord) (cetag : String)
    (hfetch : env.source cid sid = .ok (sv, etag))
    (hcfetch : envCol.collector colId = .ok (cv, cetag)) :
    (httpSourceMutate sv sn sc df dl).rest = sv.rest ∧
    (truthyOpt df = none →
      (httpSourceMutate sv sn sc df dl).defaultDateFormats = sv.defaultDateFormats) ∧
    HTTPSource.update env cid sid sn sc df dl =
      (env.updateSource cid (httpSourceMutate sv sn sc df dl) etag).map sourceUpdateOut ∧
    (collectorMutate cv cname csc cdesc).rest = cv.rest ∧
    Collector.update envCol colId ctype cname csc cdesc =
      (envCol.update_collector (collectorMutate cv cname csc cdesc) cetag).map
        collectorUpdateOut := by
  refine ⟨?_, ?_, ?_, ?_, ?_⟩
  · cases h : truthyOpt df <;> simp [httpSourceMutate, h]
  · intro h; simp [httpSourceMutate, h]
  · simp only [HTTPSource.update]
    rw [hfetch]
  · rfl
  · cases h : envCol.update_collector (collectorMutate cv cname csc cdesc) cetag <;>
      simp [Collector.update, hcfetch, h, collectorUpdateOut, Except.map]

/-- C3 witness: the theorem applied to a concrete oracle whose write is
rejected as stale, showing the rejection propagating. -/
theorem c3_witness :
    (httpSourceMutate svFetched (some "NewSource") (some "Labs/new") none none).rest
      = svFetched.rest ∧
    (truthyOpt none = none →
      (httpSourceMutate svFetched (some "NewSource") (some "Labs/new") none none).defaultDateFormats
        = svFetched.defaultDateFormats) ∧
    HTTPSource.update staleSourceUpdateEnv 1 2 (some "NewSource") (some "Labs/new") none none =
      (staleSourceUpdateEnv.updateSource 1
        (httpSourceMutate svFetched (some "NewSource") (some "Labs/new") none none)
        "etag-77").map sourceUpdateOut ∧
    (collectorMutate cvFetched (some "NewCollector") (some "Labs/new") (some "new desc")).rest
      = cvFetched.rest ∧
    Collector.update staleCollectorUpdateEnv 7 "Hosted" (some "NewCollector") (some "Labs/new")
        (some "new desc") =
      (staleCollectorUpdateEnv.update_collector
        (collectorMutate cvFetched (some "NewCollector") (some "Labs/new") (some "new desc"))
        "etag-12").map collectorUpdateOut :=
  c3_update_fetch_mutate_writeback staleSourceUpdateEnv 1 2 (some "NewSource")
    (some "Labs/new") none none svFetched "etag-77" staleCollectorUpdateEnv 7 "Hosted"
    (some "NewCollector") (some "Labs/new") (some "new desc") cvFetched "etag-12" rfl rfl

/-- C3 counterexample: App.update, run against a concrete client,
begins by deleting the existing remote app folder, never issues the
get-with-concurrency-token client call, and returns a freshly created
folder id — it does not fetch, mutate and write back the existing
representation. -/
theorem c3_counterexample_app_update :
    (App.update appClientEx "42" "Some App" [] (some "appid570")).fst =
      [AppCall.deleteFolder "42", AppCall.getPersonalFolder, AppCall.installApp "appid570",
       AppCall.checkAppInstallStatus "instjob7", AppCall.checkAppInstallStatus "instjob7",
       AppCall.checkAppInstallStatus "instjob7"] ∧
    List.all (App.update appClientEx "42" "Some App" [] (some "appid570")).fst
      notGetFolderWithToken = true ∧
    (App.update appClientEx "42" "Some App" [] (some "appid570")).snd =
      .ok ([("APP_FOLDER_NAME", "Some App_12-Oct-2026_00:00:00.000000")], some "folder9901") :=
  ⟨rfl, rfl, rfl⟩

/-- C1 (amended): for the Collector handler, calling create twice with
the same name against a consistent remote service that does not yet
hold a collector of that name returns the same collector id both
times and performs exactly one real remote creation: the first call
creates the collector, the second call's duplicate-name error is
recovered by the paginated name lookup, which adopts the existing
collector's id, and the remote store is unchanged by the second call.
The Connections handler does not satisfy the claimed protocol (see the
counterexample). -/
theorem c1_collector_create_idempotent (s : CollectorSvc) (ct nm : String)
    (cat : Option String) (d : String)
    (hfresh : ∀ c ∈ s.collectors, c.name ≠ nm) :
    (collectorCreateTwice s ct nm cat d).out1 = .ok ([("COLLECTOR_ID", s.nextId)], s.nextId) ∧
    (collectorCreateTwice s ct nm cat d).out2 = (collectorCreateTwice s ct nm cat d).out1 ∧
    (collectorCreateTwice s ct nm cat d).s1.collectors.length = s.collectors.length + 1 ∧
    (collectorCreateTwice s ct nm cat d).s2 = (collectorCreateTwice s ct nm cat d).s1 := by
  have hany : (s.collectors.any fun c => c.name == nm) = false := by
    rw [List.any_eq_false]
    intro c hc
    simp only [beq_iff_eq]
    exact hfresh c hc
  have hsvc1 : svcCreateCollector s (collectorReq ct nm cat d) =
      (.ok s.nextId,
       { collectors := s.collectors ++ [{ id := s.nextId, name := nm, collectorType := ct }],
         nextId := s.nextId + 1 }) := by
    simp [svcCreateCollector, collectorReq, hany]
  have hrun1 : collectorCreateOnSvc s ct nm cat d =
      (.ok ([("COLLECTOR_ID", s.nextId)], s.nextId),
       { collectors := s.collectors ++ [{ id := s.nextId, name := nm, collectorType := ct }],
         nextId := s.nextId + 1 }) := by
    simp only [collectorCreateOnSvc, hsvc1]
    simp [Collector.create]
  have hany2 : ((s.collectors ++
      ([{ id := s.nextId, name := nm, collectorType := ct }] : List RCollector)).any
      fun c => c.name == nm) = true := by
    simp [List.any_append]
  have hsvc2 : svcCreateCollector
      { collectors := s.collectors ++ [{ id := s.nextId, name := nm, collectorType := ct }],
        nextId := s.nextId + 1 } (collectorReq ct nm cat d) =
      (.error dupNameErr,
       { collectors := s.collectors ++ [{ id := s.nextId, name := nm, collectorType := ct }],
         nextId := s.nextId + 1 }) := by
    simp [svcCreateCollector, collectorReq, hany2, dupNameErr]
  have hfilter_none : (List.filter (fun c => c.collectorType.toLower == ct.toLower)
      s.collectors).find? (fun c => c.name == nm) = none := by
    rw [List.find?_eq_none]
    intro x hx
    simp only [beq_iff_eq]
    exact hfresh x (List.mem_filter.mp hx).1
  have hlook : Collector.get_collector_by_name nm
      (svcPages { collectors := s.collectors ++ [{ id := s.nextId, name := nm, collectorType := ct }],
                  nextId := s.nextId + 1 } ct.toLower) =
      .ok { id := s.nextId, name := nm, collectorType := ct } := by
    simp only [svcPages, get_collector_by_name_pages300, findAdopt]
    simp [List.filter_append, List.find?_append, hfilter_none]
  have hrun2 : collectorCreateOnSvc
      { collectors := s.collectors ++ [{ id := s.nextId, name := nm, collectorType := ct }],
        nextId := s.nextId + 1 } ct nm cat d =
      (.ok ([("COLLECTOR_ID", s.nextId)], s.nextId),
       { collectors := s.collectors ++ [{ id := s.nextId, name := nm, collectorType := ct }],
         nextId := s.nextId + 1 }) := by
    simp only [collectorCreateOnSvc, hsvc2]
    simp only [Collector.create]
    simp [isDuplicateNameErr, dupNameErr, hlook]
  refine ⟨?_, ?_, ?_, ?_⟩ <;>
    simp [collectorCreateTwice, hrun1, hrun2]

/-- C1 witness: the double-create theorem applied to the empty remote
service. -/
theorem c1_witness :
    (collectorCreateTwice svc0 "Hosted" "TestCollector" none "").out1 =
      .ok ([("COLLECTOR_ID", svc0.nextId)], svc0.nextId) ∧
    (collectorCreateTwice svc0 "Hosted" "TestCollector" none "").out2 =
      (collectorCreateTwice svc0 "Hosted" "TestCollector" none "").out1 ∧
    (collectorCreateTwice svc0 "Hosted" "TestCollector" none "").s1.collectors.length =
      svc0.collectors.length + 1 ∧
    (collectorCreateTwice svc0 "Hosted" "TestCollector" none "").s2 =
      (collectorCreateTwice svc0 "Hosted" "TestCollector" none "").s1 :=
  c1_collector_create_idempotent svc0 "Hosted" "TestCollector" none ""
    (by intro c hc; simp [svc0] at hc)

/-- C1 counterexample: the Connections handler does not recover a
collision by a name-based lookup adopting the existing identifier: a
first create returning id 5 followed by a second create whose
name-collision error body carries no id yields None — a different
identifier — and no list call is even available to the handler. -/
theorem c1_counterexample_connections :
    Connections.create connCreateOkEnv "AWSLambda" "TestConnection" "desc" "https://hook"
      "user" "pass" "us-east-1" "securityhub" "AWSLambda"
      = .ok ([("CONNECTION_ID", some 5)], some 5) ∧
    Connections.create connCollisionEnv "AWSLambda" "TestConnection" "desc" "https://hook"
      "user" "pass" "us-east-1" "securityhub" "AWSLambda"
      = .ok ([("CONNECTION_ID", none)], none) :=
  ⟨rfl, rfl⟩
